import Mathlib

/-!
Shallow embedding of `src/server.js` (electron-esim backend).

The server is single-threaded per request; each handler invocation is
modelled as a pure function from the pre-request global state, the
current clock value, the parsed request body, and the outcome the
upstream provider would deliver, to the HTTP response, the post-request
global state, and the list of network calls the invocation actually
issued.  All `Date.now()` readings inside one handler invocation are
collapsed to the single `now` argument (the source reads the clock
again inside `safeSearchDevices` and in the catch blocks, but no time
passes in the sequential model between those reads).

JavaScript truthiness is modelled explicitly where the source relies on
it: an absent (`undefined`/`null`) string is `Option.none`, the empty
string is falsy, and an array is always truthy (so the empty array
passes a `!x` guard).
-/

namespace ElectronEsim

/-! ### JS string helpers -/

/-- Boolean substring search on character lists: does `pat` occur as a
contiguous run inside the second list? -/
def seqContains (pat : List Char) : List Char → Bool
  | [] => pat.isEmpty
  | c :: rest => pat.isPrefixOf (c :: rest) || seqContains pat rest

/-- JS substring test: `s.includes(pat)` on the underlying character lists. -/
def strContains (s pat : String) : Bool :=
  seqContains pat.data s.data

/-- JS `s.toLowerCase()`, modelled character by character (kernel-reducible
replacement for String.toLower, which it agrees with on these inputs). -/
def strToLower (s : String) : String :=
  ⟨s.data.map Char.toLower⟩

/-- Trim whitespace characters from both ends of a character list. -/
def trimChars (l : List Char) : List Char :=
  ((l.dropWhile Char.isWhitespace).reverse.dropWhile Char.isWhitespace).reverse

/-- JS `s.trim()`, modelled on the character list (kernel-reducible
replacement for String.trim). -/
def strTrim (s : String) : String :=
  ⟨trimChars s.data⟩

/-- Truthiness of a possibly-absent JS string: `undefined`, `null` and `""`
are falsy. -/
def optStrTruthy : Option String → Bool
  | none => false
  | some s => s ≠ ""

/-- JS `x || null` on a possibly-absent string: keep the string only when it
is truthy. -/
def jsOrNull : Option String → Option String
  | none => none
  | some s => if s = "" then none else some s

/-! ### Data model -/

/-- The value of one specification entry: either a single string or an
ordered sequence of strings (the two shapes the scan at
server.js lines 169-173 distinguishes with `Array.isArray`). -/
inductive SpecValue where
  | str (s : String)
  | arr (l : List String)
deriving Repr, DecidableEq

/-- One `{name, value}` specification entry; `value = none` models an
absent (`undefined`/`null`) value, skipped by the guard at line 166. -/
structure SpecEntry where
  name : String
  value : Option SpecValue
deriving Repr, DecidableEq

/-- One specification section (server.js iterates `section.specifications`). -/
structure SpecSection where
  specifications : List SpecEntry
deriving Repr, DecidableEq

/-- Device detail as consumed by the check-esim handler: a name and the
`detailSpec` sections.  (Null or non-array sections/spec lists are skipped
by the guards at lines 161-163 and contribute nothing to the scan; they are
not representable here.) -/
structure DeviceDetail where
  name : String
  detailSpec : List SpecSection
deriving Repr, DecidableEq

/-- A raw upstream search result (fields of interest of the provider's
duck-typed objects; `thumbnail`/`brand` may be absent). -/
structure RawSearchResult where
  id : String
  name : String
  thumbnail : Option String
  brand : Option String
deriving Repr, DecidableEq

/-- The public mapped search-result shape `{id, name, image, brand}`
(server.js `mapDeviceResult`). -/
structure SearchResult where
  id : String
  name : String
  image : Option String
  brand : Option String
deriving Repr, DecidableEq

/-! ### Spec extractor (server.js lines 159-177, 179-204) -/

/-- JS falsiness of a present spec value: only the empty string is falsy
(an array, even empty, is truthy). -/
def valueFalsy : SpecValue → Bool
  | .str s => s = ""
  | .arr _ => false

/-- Text captured from a matching entry's value: `value.join(" | ")` for an
array, `String(value)` otherwise (lines 169-173). -/
def specValueText : SpecValue → String
  | .str s => s
  | .arr l => String.intercalate " | " l

/-- One iteration of the inner scan loop (lines 165-175): skip the entry
unless its name and value are both truthy; when the lowercased name
contains "sim", overwrite the accumulator with the value's text. -/
def scanEntry (acc : Option String) (e : SpecEntry) : Option String :=
  match e.value with
  | none => acc
  | some v =>
    if e.name = "" then acc
    else if valueFalsy v then acc
    else if strContains (strToLower e.name) "sim" then some (specValueText v)
    else acc

/-- The scan over one section's entries. -/
def scanSection (acc : Option String) (sec : SpecSection) : Option String :=
  sec.specifications.foldl scanEntry acc

/-- The full scan producing `simText` (starts `null`, lines 159-177). -/
def scanSimText (d : DeviceDetail) : Option String :=
  d.detailSpec.foldl scanSection none

/-- JS falsiness of the scanned `simText` at line 179: `null` or `""`. -/
def simTextFalsy : Option String → Bool
  | none => true
  | some s => s = ""

/-- The extractor's verdict: lines 179-204 collapsed to the
`(simRaw, supportsEsim)` pair of the assembled payload. -/
def extractSimInfo (d : DeviceDetail) : Option String × Option Bool :=
  match scanSimText d with
  | none => (none, none)
  | some t =>
    if t = "" then (none, none)
    else (some t, some (strContains (strToLower t) "esim"))

/-! ### Global server state, responses, upstream behaviour -/

/-- The cached/returned AnswerPayload.  Fields the source omits from a
given payload object (e.g. the not-found payload has only `found` and
`message`) are `none` / defaulted. -/
structure Payload where
  found : Bool
  deviceName : Option String := none
  deviceId : Option String := none
  simRaw : Option String := none
  supportsEsim : Option Bool := none
  message : String := ""
deriving Repr, DecidableEq

/-- The process-wide mutable state: the throttle scalars (server.js
lines 22-24, both initialized to 0) and the response cache (line 19,
modelled as an association list where a later `set` shadows by
prepending). -/
structure ServerState where
  lastCallTs : Nat
  remoteBlockedUntil : Nat
  cache : List (String × Payload)
deriving Repr, DecidableEq

/-- Map.has/Map.get collapsed: exact-key lookup in the cache. -/
def cacheGet (c : List (String × Payload)) (k : String) : Option Payload :=
  c.lookup k

/-- Map.set: a later write shadows an earlier one under lookup. -/
def cachePut (c : List (String × Payload)) (k : String) (p : Payload) :
    List (String × Payload) :=
  (k, p) :: c

/-- MIN_INTERVAL_MS (server.js line 23): 5 seconds between upstream calls. -/
def MIN_INTERVAL_MS : Nat := 5000

/-- The cooldown armed after an upstream 429 (lines 87 and 213): 30 seconds. -/
def COOLDOWN_MS : Nat := 30000

/-- Reason codes of the two local throttle rejections. -/
inductive ThrottleCode where
  | localThrottle
  | upstreamBlocked
deriving Repr, DecidableEq

/-- The HTTP responses a handler can produce, abstracted to status plus the
contractual body fields (error-message text is not part of the contract). -/
inductive Response where
  | searchOk (results : List SearchResult)
  | esimOk (body : Payload) (fromCache : Bool)
  | badRequest
  | throttled (code : ThrottleCode)
  | upstreamLimited
  | serverError
deriving Repr, DecidableEq

/-- HTTP status of each response shape. -/
def statusOf : Response → Nat
  | .searchOk _ => 200
  | .esimOk _ _ => 200
  | .badRequest => 400
  | .throttled _ => 429
  | .upstreamLimited => 429
  | .serverError => 500

/-- Errors an upstream call can surface, as classified by the catch blocks
(lines 86 and 212): a provider HTTP 429 response, an error whose `code`
property is "UPSTREAM_BLOCKED", or anything else. -/
inductive UpErr where
  | http429
  | blocked
  | other
deriving Repr, DecidableEq

/-- A network call actually issued to the provider. -/
inductive UpstreamCall where
  | search (q : String)
  | getDevice (id : String)
deriving Repr, DecidableEq

/-- What the provider's search would deliver if contacted: an error, or a
result value that is either unusable (`none`: null / not an array, turned
into `[]` by line 33) or a list whose elements may themselves be null. -/
def SearchNet : Type := Except UpErr (Option (List (Option RawSearchResult)))

/-- What the provider's getDevice would deliver if contacted. -/
def DeviceNet : Type := Except UpErr DeviceDetail

/-! ### Upstream Client (server.js lines 26-35 and the raw call at 157) -/

/-- safeSearchDevices: rejects with an UPSTREAM_BLOCKED error before
touching the network while the cooldown window is active; otherwise
contacts the provider and coerces an unusable result to `[]`.  Returns the
outcome together with the network calls issued. -/
def safeSearchDevices (remoteBlockedUntil now : Nat) (q : String)
    (net : SearchNet) :
    Except UpErr (List (Option RawSearchResult)) × List UpstreamCall :=
  if now < remoteBlockedUntil then (.error .blocked, [])
  else
    match net with
    | .error e => (.error e, [.search q])
    | .ok none => (.ok [], [.search q])
    | .ok (some l) => (.ok l, [.search q])

/-- The device-detail fetch at server.js line 157 is a direct
`gsmarena.catalog.getDevice(selectedId)` call: unlike safeSearchDevices it
performs no cooldown-window check of its own, so the throttle-state
arguments are unused.  They are kept in the signature to state (and refute)
gating properties of this operation. -/
def getDeviceCall (_remoteBlockedUntil _now : Nat) (id : String)
    (net : DeviceNet) : Except UpErr DeviceDetail × List UpstreamCall :=
  (net, [.getDevice id])

/-! ### Catch blocks (lines 83-98 and 209-224) -/

/-- Response produced by a handler's catch block: a provider 429 or a
blocked error becomes HTTP 429 with numeric code 429; anything else
becomes HTTP 500. -/
def catchResponse : UpErr → Response
  | .http429 => .upstreamLimited
  | .blocked => .upstreamLimited
  | .other => .serverError

/-- State update of a handler's catch block: a rate-limit signal arms the
30-second cooldown; other errors leave the state unchanged. -/
def catchState (st : ServerState) (now : Nat) : UpErr → ServerState
  | .http429 => { st with remoteBlockedUntil := now + COOLDOWN_MS }
  | .blocked => { st with remoteBlockedUntil := now + COOLDOWN_MS }
  | .other => st

/-! ### Request bodies and derived inputs -/

/-- Parsed body of POST /api/search-devices. -/
structure SearchRequest where
  query : Option String
deriving Repr, DecidableEq

/-- Parsed body of POST /api/check-esim. -/
structure CheckRequest where
  query : Option String
  deviceId : Option String
deriving Repr, DecidableEq

/-- The validation test `!query || !query.trim()`: the query is absent,
empty, or whitespace-only. -/
def blankQuery (q : Option String) : Bool :=
  !optStrTruthy q || strTrim (q.getD "") = ""

/-- Line 112: `query ? query.trim() : null`. -/
def cleanQueryOf (q : Option String) : Option String :=
  if optStrTruthy q then some (strTrim (q.getD "")) else none

/-- normalizeCacheKey (lines 37-40): `id:<deviceId>` when a device id is
truthy, else `q:<trimmed lowercased query>` (the query defaulting to ""). -/
def normalizeCacheKey (query deviceId : Option String) : String :=
  if optStrTruthy deviceId then "id:" ++ deviceId.getD ""
  else "q:" ++ strToLower (strTrim (query.getD ""))

/-- mapDeviceResult (lines 42-50): null in, null out; otherwise project to
the public shape, with falsy thumbnail/brand coerced to null. -/
def mapDeviceResult : Option RawSearchResult → Option SearchResult
  | none => none
  | some d => some { id := d.id, name := d.name,
                     image := jsOrNull d.thumbnail, brand := jsOrNull d.brand }

/-! ### POST /api/search-devices handler (lines 53-99) -/

/-- The search handler as a function of pre-state, clock, request and what
the provider would deliver; yields response, post-state and the network
calls issued.  Order as in the source: validate, local throttle, blocked
window, reserve lastCallTs, call safeSearchDevices, map/slice/filter. -/
def handleSearch (st : ServerState) (now : Nat) (req : SearchRequest)
    (net : SearchNet) : Response × ServerState × List UpstreamCall :=
  if blankQuery req.query then (.badRequest, st, [])
  else if now - st.lastCallTs < MIN_INTERVAL_MS then
    (.throttled .localThrottle, st, [])
  else if now < st.remoteBlockedUntil then
    (.throttled .upstreamBlocked, st, [])
  else
    let st1 : ServerState := { st with lastCallTs := now }
    let cleanQuery := strTrim (req.query.getD "")
    match safeSearchDevices st1.remoteBlockedUntil now cleanQuery net with
    | (.error e, calls) => (catchResponse e, catchState st1 now e, calls)
    | (.ok results, calls) =>
      (.searchOk (((results.take 8).map mapDeviceResult).filterMap id),
       st1, calls)

/-! ### POST /api/check-esim handler (lines 102-225) -/

/-- The Arabic not-found message (line 146); content is not a contract. -/
def notFoundMsg : String :=
  "لم نجد جهازاً مطابقاً. جرّب كتابة الاسم بشكل أدق."

/-- The Arabic could-not-determine message (line 187). -/
def noSimDataMsg : String :=
  "لم نعثر على تفاصيل الشريحة لهذا الجهاز. قد تحتاج للتأكد يدوياً أو من دليل الجهاز."

/-- The Arabic supports-eSIM message (line 202). -/
def esimYesMsg : String := "هذا الجهاز يدعم شريحة eSIM بحسب تفاصيل الشرائح."

/-- The Arabic no-evidence message (line 203). -/
def esimNoMsg : String := "لم نجد ما يثبت دعم eSIM في مواصفات هذا الجهاز."

/-- Line 182/197: `device.name || (firstResult && firstResult.name) || query`
under JS truthiness, as an optional string (undefined survives to the
payload when every operand is falsy). -/
def deviceNameOf (devName : String) (firstResult : Option RawSearchResult)
    (query : Option String) : Option String :=
  if devName ≠ "" then some devName
  else
    match firstResult with
    | some r => if r.name ≠ "" then some r.name else query
    | none => query

/-- Lines 157-208: fetch the device detail, scan its specifications, build
the payload, cache it.  `priorCalls` are network calls already issued by
the search step of the same invocation. -/
def finishDevice (st1 : ServerState) (now : Nat) (cacheKey : String)
    (firstResult : Option RawSearchResult) (selectedId : String)
    (query : Option String) (devNet : DeviceNet)
    (priorCalls : List UpstreamCall) :
    Response × ServerState × List UpstreamCall :=
  match getDeviceCall st1.remoteBlockedUntil now selectedId devNet with
  | (.error e, calls) =>
    (catchResponse e, catchState st1 now e, priorCalls ++ calls)
  | (.ok device, calls) =>
    let allCalls := priorCalls ++ calls
    let simText := scanSimText device
    if simTextFalsy simText then
      let payload : Payload :=
        { found := true,
          deviceName := deviceNameOf device.name firstResult query,
          deviceId := some selectedId,
          simRaw := none, supportsEsim := none,
          message := noSimDataMsg }
      (.esimOk payload false,
       { st1 with cache := cachePut st1.cache cacheKey payload }, allCalls)
    else
      let t := simText.getD ""
      let supportsEsim := strContains (strToLower t) "esim"
      let payload : Payload :=
        { found := true,
          deviceName := deviceNameOf device.name firstResult query,
          deviceId := some selectedId,
          simRaw := some t, supportsEsim := some supportsEsim,
          message := if supportsEsim then esimYesMsg else esimNoMsg }
      (.esimOk payload false,
       { st1 with cache := cachePut st1.cache cacheKey payload }, allCalls)

/-- The check-esim handler.  Order as in the source: validate, compute the
cache key, cache hit short-circuit, local throttle, blocked window, reserve
lastCallTs, then (when no device id) search — returning and caching the
not-found payload on an empty result list, and failing like the source's
TypeError (HTTP 500) when the first result is null — and finally the
device-detail fetch and extraction. -/
def handleCheckEsim (st : ServerState) (now : Nat) (req : CheckRequest)
    (searchNet : SearchNet) (devNet : DeviceNet) :
    Response × ServerState × List UpstreamCall :=
  if blankQuery req.query && !optStrTruthy req.deviceId then
    (.badRequest, st, [])
  else
    let cleanQuery := cleanQueryOf req.query
    let cacheKey := normalizeCacheKey cleanQuery req.deviceId
    match cacheGet st.cache cacheKey with
    | some p => (.esimOk p true, st, [])
    | none =>
      if now - st.lastCallTs < MIN_INTERVAL_MS then
        (.throttled .localThrottle, st, [])
      else if now < st.remoteBlockedUntil then
        (.throttled .upstreamBlocked, st, [])
      else
        let st1 : ServerState := { st with lastCallTs := now }
        if !optStrTruthy req.deviceId then
          match safeSearchDevices st1.remoteBlockedUntil now
              (cleanQuery.getD "") searchNet with
          | (.error e, calls) =>
            (catchResponse e, catchState st1 now e, calls)
          | (.ok results, calls) =>
            match results with
            | [] =>
              let payload : Payload := { found := false, message := notFoundMsg }
              (.esimOk payload false,
               { st1 with cache := cachePut st1.cache cacheKey payload }, calls)
            | none :: _ => (.serverError, st1, calls)
            | some firstResult :: _ =>
              finishDevice st1 now cacheKey (some firstResult) firstResult.id
                req.query devNet calls
        else
          finishDevice st1 now cacheKey none (req.deviceId.getD "")
            req.query devNet []

/-! ### Characterization of the scan: last capture wins -/

/-- The text a single entry contributes to the scan, if any: the entry must
pass the truthiness guard and its lowercased name must contain "sim". -/
def captureOf (e : SpecEntry) : Option String :=
  match e.value with
  | none => none
  | some v =>
    if e.name = "" then none
    else if valueFalsy v then none
    else if strContains (strToLower e.name) "sim" then some (specValueText v)
    else none

/-- All texts captured across a device's sections, in scan order. -/
def capturedTexts (d : DeviceDetail) : List String :=
  ((d.detailSpec.map (fun sec => sec.specifications)).flatten).filterMap captureOf

/-- Combine an earlier accumulator with a later optional result: the later
one wins when present. -/
def lastWins (a b : Option String) : Option String :=
  match b with
  | some t => some t
  | none => a

theorem scanEntry_eq_captureOf (acc : Option String) (e : SpecEntry) :
    scanEntry acc e = lastWins acc (captureOf e) := by
  rcases e with ⟨nm, v⟩
  cases v with
  | none => rfl
  | some v =>
    simp only [scanEntry, captureOf]
    by_cases h1 : nm = "" <;> simp [h1, lastWins]
    by_cases h2 : valueFalsy v <;> simp [h2, lastWins]
    by_cases h3 : strContains (strToLower nm) "sim" <;> simp [h3, lastWins]

theorem lastWins_assoc (a b c : Option String) :
    lastWins (lastWins a b) c = lastWins a (lastWins b c) := by
  cases c <;> cases b <;> rfl

theorem lastWins_none (b : Option String) : lastWins none b = b := by
  cases b <;> rfl

theorem getLast?_cons_ne_none (b : String) (bs : List String) :
    (b :: bs).getLast? ≠ none := by
  induction bs generalizing b with
  | nil => simp [List.getLast?]
  | cons c cs ih => rw [List.getLast?_cons_cons]; exact ih c

theorem getLast?_append_lastWins (A B : List String) :
    (A ++ B).getLast? = lastWins A.getLast? B.getLast? := by
  cases B with
  | nil => simp [lastWins]
  | cons b bs =>
    rw [List.getLast?_append_cons A b bs]
    cases hc : (b :: bs).getLast? with
    | none => exact absurd hc (getLast?_cons_ne_none b bs)
    | some t => simp [lastWins]

theorem foldl_scanEntry_eq (l : List SpecEntry) (acc : Option String) :
    l.foldl scanEntry acc = lastWins acc (l.filterMap captureOf).getLast? := by
  induction l generalizing acc with
  | nil => simp [lastWins]
  | cons e rest ih =>
    rw [List.foldl_cons, ih, scanEntry_eq_captureOf]
    rcases h : captureOf e with _ | t
    · simp [List.filterMap_cons_none h, lastWins]
    · rw [List.filterMap_cons_some h]
      rw [show t :: List.filterMap captureOf rest =
            [t] ++ List.filterMap captureOf rest from rfl,
          getLast?_append_lastWins, ← lastWins_assoc]
      rfl

theorem scanSection_eq (acc : Option String) (sec : SpecSection) :
    scanSection acc sec =
      lastWins acc (sec.specifications.filterMap captureOf).getLast? :=
  foldl_scanEntry_eq sec.specifications acc

/-- The whole scan returns exactly the last captured text (or nothing). -/
theorem scanSimText_eq_getLast (d : DeviceDetail) :
    scanSimText d = (capturedTexts d).getLast? := by
  rcases d with ⟨nm, sections⟩
  show sections.foldl scanSection none = _
  have main : ∀ (secs : List SpecSection) (acc : Option String),
      secs.foldl scanSection acc =
        lastWins acc
          (((secs.map (fun sec => sec.specifications)).flatten).filterMap
            captureOf).getLast? := by
    intro secs
    induction secs with
    | nil => intro acc; simp [lastWins]
    | cons s rest ih =>
      intro acc
      rw [List.foldl_cons, ih, scanSection_eq]
      rw [List.map_cons, List.flatten_cons, List.filterMap_append,
        getLast?_append_lastWins, lastWins_assoc]
  rw [main sections none, lastWins_none]
  rfl

/-- Membership form of the scan characterization. -/
theorem mem_of_getLast?_eq (l : List String) (t : String)
    (h : l.getLast? = some t) : t ∈ l := by
  obtain ⟨hne, hx⟩ := List.mem_getLast?_eq_getLast (Option.mem_def.mpr h)
  exact hx ▸ List.getLast_mem hne

/-- What a successful capture tells us about the entry. -/
theorem captureOf_eq_some (e : SpecEntry) (t : String)
    (h : captureOf e = some t) :
    ∃ v, e.value = some v ∧ strContains (strToLower e.name) "sim" = true ∧
      t = specValueText v := by
  rcases e with ⟨nm, _ | v⟩
  · simp [captureOf] at h
  · simp only [captureOf] at h
    split at h
    · cases h
    · split at h
      · cases h
      · split at h
        · rename_i h3
          exact ⟨v, rfl, h3, (Option.some_inj.mp h).symm⟩
        · cases h

/-- An entry whose name does not mention "sim" contributes nothing. -/
theorem captureOf_eq_none_of_not_sim (e : SpecEntry)
    (h : strContains (strToLower e.name) "sim" = false) :
    captureOf e = none := by
  unfold captureOf
  cases e.value with
  | none => rfl
  | some v => simp [h]

/-- A device with no sim-named entry anywhere scans to null. -/
theorem scanSimText_eq_none_of_no_sim (d : DeviceDetail)
    (h : ∀ sec ∈ d.detailSpec, ∀ e ∈ sec.specifications,
        strContains (strToLower e.name) "sim" = false) :
    scanSimText d = none := by
  rw [scanSimText_eq_getLast]
  have hnil : capturedTexts d = [] := by
    apply List.filterMap_eq_nil_iff.mpr
    intro e he
    rw [List.mem_flatten] at he
    obtain ⟨l, hl, hel⟩ := he
    rw [List.mem_map] at hl
    obtain ⟨sec, hsec, rfl⟩ := hl
    exact captureOf_eq_none_of_not_sim e (h sec hsec e hel)
  rw [hnil]; rfl

/-- The extractor on a device whose last captured text is non-empty. -/
theorem extractSimInfo_of_getLast (d : DeviceDetail) (t : String)
    (hlast : (capturedTexts d).getLast? = some t) (hne : t ≠ "") :
    extractSimInfo d = (some t, some (strContains (strToLower t) "esim")) := by
  unfold extractSimInfo
  rw [scanSimText_eq_getLast, hlast]
  simp [hne]

/-! ### Claim theorems -/

/-- C1: for every pair of upstream-bound requests (to either endpoint)
where the second request's current time is less than 5000ms after the
recorded lastCallTimestamp of the first (held in the state as
`st.lastCallTs`), the second request is answered HTTP 429 with code
LOCAL_THROTTLE and makes no upstream call (its network-call trace is
empty) and leaves the state unchanged. -/
theorem C1_local_throttle_rejects (st : ServerState) (now : Nat)
    (sreq : SearchRequest) (ereq : CheckRequest)
    (sNet sNet2 : SearchNet) (devNet : DeviceNet)
    (hs : blankQuery sreq.query = false)
    (he : (blankQuery ereq.query && !optStrTruthy ereq.deviceId) = false)
    (hmiss : cacheGet st.cache
      (normalizeCacheKey (cleanQueryOf ereq.query) ereq.deviceId) = none)
    (hlt : now < st.lastCallTs + MIN_INTERVAL_MS) :
    handleSearch st now sreq sNet = (.throttled .localThrottle, st, []) ∧
    handleCheckEsim st now ereq sNet2 devNet =
      (.throttled .localThrottle, st, []) ∧
    statusOf (.throttled .localThrottle) = 429 := by
  have hcond : now - st.lastCallTs < MIN_INTERVAL_MS := by
    unfold MIN_INTERVAL_MS at hlt ⊢; omega
  refine ⟨?_, ?_, rfl⟩
  · simp [handleSearch, hs, hcond]
  · simp [handleCheckEsim, he, hmiss, hcond]

/-- Witness for C1 at a concrete state and pair of requests. -/
theorem C1_local_throttle_rejects_witness :
    handleSearch ⟨10000, 0, []⟩ 12000 ⟨some "pixel"⟩ (.ok (some [])) =
      (.throttled .localThrottle, ⟨10000, 0, []⟩, []) ∧
    handleCheckEsim ⟨10000, 0, []⟩ 12000 ⟨some "pixel", none⟩ (.ok (some []))
        (.error .other) = (.throttled .localThrottle, ⟨10000, 0, []⟩, []) ∧
    statusOf (.throttled .localThrottle) = 429 :=
  C1_local_throttle_rejects ⟨10000, 0, []⟩ 12000 ⟨some "pixel"⟩
    ⟨some "pixel", none⟩ (.ok (some [])) (.ok (some [])) (.error .other)
    (by decide) (by decide) (by decide) (by decide)

/-- C3: a check-esim request whose LookupKey is in the cache returns the
stored payload annotated fromCache = true, touches neither the throttle
state nor the network, for any throttle state and any stored payload
(including found = false ones). -/
theorem C3_cache_hit_short_circuits (st : ServerState) (now : Nat)
    (req : CheckRequest) (sNet : SearchNet) (devNet : DeviceNet) (p : Payload)
    (hvalid : (blankQuery req.query && !optStrTruthy req.deviceId) = false)
    (hhit : cacheGet st.cache
      (normalizeCacheKey (cleanQueryOf req.query) req.deviceId) = some p) :
    handleCheckEsim st now req sNet devNet = (.esimOk p true, st, []) := by
  simp [handleCheckEsim, hvalid, hhit]

/-- Witness for C3: a cached found = false payload served while the
throttle state would reject any upstream-bound request. -/
theorem C3_cache_hit_short_circuits_witness :
    handleCheckEsim
        ⟨1000, 999999, [("id:xyz", ⟨false, none, none, none, none, notFoundMsg⟩)]⟩
        1001 ⟨none, some "xyz"⟩ (.ok (some [])) (.error .other) =
      (.esimOk ⟨false, none, none, none, none, notFoundMsg⟩ true,
       ⟨1000, 999999, [("id:xyz", ⟨false, none, none, none, none, notFoundMsg⟩)]⟩,
       []) :=
  C3_cache_hit_short_circuits
    ⟨1000, 999999, [("id:xyz", ⟨false, none, none, none, none, notFoundMsg⟩)]⟩
    1001 ⟨none, some "xyz"⟩ (.ok (some [])) (.error .other)
    ⟨false, none, none, none, none, notFoundMsg⟩ (by decide) (by decide)

/-- C2 counterexample: an upstream 429 at t1 = 10000 arms
blockedUntilTimestamp = 40000, yet the next request at t2 = 12000 —
strictly before blockedUntilTimestamp — is rejected with code
LOCAL_THROTTLE, not UPSTREAM_BLOCKED, because the 5-second local throttle
is checked first and lastCallTs was reserved at 10000. -/
theorem C2_cooldown_counterexample :
    handleSearch ⟨0, 0, []⟩ 10000 ⟨some "iphone"⟩ (.error .http429) =
      (.upstreamLimited, ⟨10000, 40000, []⟩, [.search "iphone"]) ∧
    handleSearch ⟨10000, 40000, []⟩ 12000 ⟨some "iphone"⟩ (.ok (some [])) =
      (.throttled .localThrottle, ⟨10000, 40000, []⟩, []) ∧
    (12000 : Nat) < 40000 ∧
    ThrottleCode.localThrottle ≠ ThrottleCode.upstreamBlocked := by
  refine ⟨by decide, by decide, by decide, by decide⟩

/-- C2 (amended): an upstream-call failure with HTTP 429 sets
blockedUntilTimestamp to now + 30000ms; every subsequent request that
passes validation, misses the cache, and is outside the local 5-second
window is rejected HTTP 429 UPSTREAM_BLOCKED with no upstream call while
the current time is strictly before blockedUntilTimestamp; once the
current time reaches blockedUntilTimestamp such a request issues its
upstream call again. -/
theorem C2_cooldown_blocks (st : ServerState) (t1 t2 t3 : Nat) (q : String)
    (ereq : CheckRequest) (net2 net3 : SearchNet) (devNet : DeviceNet)
    (hq : blankQuery (some q) = false)
    (h1a : st.lastCallTs + MIN_INTERVAL_MS ≤ t1)
    (h1b : st.remoteBlockedUntil ≤ t1)
    (he : (blankQuery ereq.query && !optStrTruthy ereq.deviceId) = false)
    (hmiss : cacheGet st.cache
      (normalizeCacheKey (cleanQueryOf ereq.query) ereq.deviceId) = none)
    (h2a : t1 + MIN_INTERVAL_MS ≤ t2)
    (h2b : t2 < t1 + COOLDOWN_MS)
    (h3a : t1 + COOLDOWN_MS ≤ t3) :
    handleSearch st t1 ⟨some q⟩ (.error .http429) =
      (.upstreamLimited, ⟨t1, t1 + COOLDOWN_MS, st.cache⟩,
       [.search (strTrim q)]) ∧
    handleSearch ⟨t1, t1 + COOLDOWN_MS, st.cache⟩ t2 ⟨some q⟩ net2 =
      (.throttled .upstreamBlocked, ⟨t1, t1 + COOLDOWN_MS, st.cache⟩, []) ∧
    handleCheckEsim ⟨t1, t1 + COOLDOWN_MS, st.cache⟩ t2 ereq net2 devNet =
      (.throttled .upstreamBlocked, ⟨t1, t1 + COOLDOWN_MS, st.cache⟩, []) ∧
    (handleSearch ⟨t1, t1 + COOLDOWN_MS, st.cache⟩ t3 ⟨some q⟩ net3).2.2 =
      [.search (strTrim q)] ∧
    statusOf (.throttled .upstreamBlocked) = 429 := by
  have hg1 : ¬(t1 - st.lastCallTs < MIN_INTERVAL_MS) := by
    unfold MIN_INTERVAL_MS at *; omega
  have hg2 : ¬(t1 < st.remoteBlockedUntil) := by omega
  have h2g1 : ¬(t2 - t1 < MIN_INTERVAL_MS) := by
    unfold MIN_INTERVAL_MS at *; omega
  have h3g1 : ¬(t3 - t1 < MIN_INTERVAL_MS) := by
    unfold MIN_INTERVAL_MS COOLDOWN_MS at *; omega
  have h3g2 : ¬(t3 < t1 + COOLDOWN_MS) := by omega
  refine ⟨?_, ?_, ?_, ?_, rfl⟩
  · simp [handleSearch, hq, hg1, hg2, safeSearchDevices, catchResponse,
      catchState]
  · simp [handleSearch, hq, h2g1, h2b]
  · simp [handleCheckEsim, he, hmiss, h2g1, h2b]
  · rcases net3 with e | (_ | l) <;>
      simp [handleSearch, hq, h3g1, h3g2, safeSearchDevices]

/-- Witness for C2 at a concrete trace: 429 at 10000, blocked at 16000,
allowed again at 40000. -/
theorem C2_cooldown_blocks_witness :
    handleSearch ⟨0, 0, []⟩ 10000 ⟨some "iphone"⟩ (.error .http429) =
      (.upstreamLimited, ⟨10000, 10000 + COOLDOWN_MS, []⟩,
       [.search (strTrim "iphone")]) ∧
    handleSearch ⟨10000, 10000 + COOLDOWN_MS, []⟩ 16000 ⟨some "iphone"⟩
        (.ok (some [])) =
      (.throttled .upstreamBlocked, ⟨10000, 10000 + COOLDOWN_MS, []⟩, []) ∧
    handleCheckEsim ⟨10000, 10000 + COOLDOWN_MS, []⟩ 16000
        ⟨some "galaxy", none⟩ (.ok (some [])) (.error .other) =
      (.throttled .upstreamBlocked, ⟨10000, 10000 + COOLDOWN_MS, []⟩, []) ∧
    (handleSearch ⟨10000, 10000 + COOLDOWN_MS, []⟩ 40000 ⟨some "iphone"⟩
        (.ok (some []))).2.2 = [.search (strTrim "iphone")] ∧
    statusOf (.throttled .upstreamBlocked) = 429 :=
  C2_cooldown_blocks ⟨0, 0, []⟩ 10000 16000 40000 "iphone"
    ⟨some "galaxy", none⟩ (.ok (some [])) (.ok (some [])) (.error .other)
    (by decide) (by decide) (by decide) (by decide) (by decide) (by decide)
    (by decide) (by decide)

/-- A device whose last sim-named entry has a falsy (empty-string) value:
the scan's guard skips it, so the earlier match survives. -/
def lastSimFalsyDevice : DeviceDetail :=
  ⟨"Phone Y", [⟨[⟨"SIM", some (.str "Nano-SIM")⟩,
                ⟨"Second SIM", some (.str "")⟩]⟩]⟩

/-- C4 counterexample: in lastSimFalsyDevice both entry names contain "sim",
and the last such entry's value is the string "" — yet the extractor's
simRaw is the FIRST entry's value "Nano-SIM", not the last entry's value.
The claim as stated (simRaw is the value of the last sim-named entry,
with no side condition on the value) is false on this device. -/
theorem C4_last_match_counterexample :
    (extractSimInfo lastSimFalsyDevice).1 = some "Nano-SIM" ∧
    (extractSimInfo lastSimFalsyDevice).1 ≠ some (specValueText (.str "")) ∧
    strContains (strToLower "Second SIM") "sim" = true := by
  refine ⟨by decide, by decide, by decide⟩

/-- C4 (amended): among the entries that pass the truthiness guard (name
and value truthy) and whose lowercased name contains "sim", the LAST one
in scan order wins: whenever the last captured text is non-empty, simRaw
equals it (first matches are overwritten; no early exit). -/
theorem C4_last_capture_wins (d : DeviceDetail) (t : String)
    (hlast : (capturedTexts d).getLast? = some t) (hne : t ≠ "") :
    (extractSimInfo d).1 = some t := by
  rw [extractSimInfo_of_getLast d t hlast hne]

/-- A device with matching SIM entries in two different sections. -/
def dualSimDevice : DeviceDetail :=
  ⟨"Phone W", [⟨[⟨"SIM", some (.str "Mini-SIM")⟩]⟩,
               ⟨[⟨"SIM 2", some (.arr ["Nano-SIM", "eSIM"])⟩]⟩]⟩

/-- Witness for C4: with matches in two sections, the second section's
entry (the last captured) determines simRaw. -/
theorem C4_last_capture_wins_witness :
    (capturedTexts dualSimDevice).getLast? = some "Nano-SIM | eSIM" ∧
    (extractSimInfo dualSimDevice).1 = some "Nano-SIM | eSIM" :=
  ⟨by decide,
   C4_last_capture_wins dualSimDevice "Nano-SIM | eSIM" (by decide) (by decide)⟩

/-- A device whose only sim-named entry carries an empty array value: the
array is truthy (passes the guard) but joins to "", which the falsy test
on simText then sends to the no-SIM-data branch. -/
def emptyArrSimDevice : DeviceDetail :=
  ⟨"Phone Z", [⟨[⟨"SIM", some (.arr [])⟩]⟩]⟩

/-- C5 counterexample: emptyArrSimDevice has a sim-named entry, and the
claim says simRaw should be the joined value "" with supportsEsim false —
but the extractor returns simRaw = null, supportsEsim = null. -/
theorem C5_capture_counterexample :
    extractSimInfo emptyArrSimDevice = (none, none) ∧
    extractSimInfo emptyArrSimDevice ≠
      (some (String.intercalate " | " ([] : List String)), some false) ∧
    strContains (strToLower "SIM") "sim" = true := by
  refine ⟨by decide, by decide, by decide⟩

/-- C5 (amended): whenever the winning (last captured) text is non-empty,
simRaw is exactly that text — the value's elements joined with " | " for a
sequence, the string itself otherwise, as built into capturedTexts via
specValueText — and supportsEsim is true exactly when the lowercased text
contains "esim". -/
theorem C5_extraction_on_match (d : DeviceDetail) (t : String)
    (hlast : (capturedTexts d).getLast? = some t) (hne : t ≠ "") :
    extractSimInfo d = (some t, some (strContains (strToLower t) "esim")) :=
  extractSimInfo_of_getLast d t hlast hne

/-- The spec's own example device: SIM value ["Nano-SIM","Yes","eSIM"]. -/
def specExampleDevice : DeviceDetail :=
  ⟨"Phone X", [⟨[⟨"SIM", some (.arr ["Nano-SIM", "Yes", "eSIM"])⟩]⟩]⟩

/-- Witness for C5 on the spec's example: the joined text and a true
eSIM verdict. -/
theorem C5_extraction_on_match_witness :
    extractSimInfo specExampleDevice =
      (some "Nano-SIM | Yes | eSIM",
       some (strContains (strToLower "Nano-SIM | Yes | eSIM") "esim")) ∧
    strContains (strToLower "Nano-SIM | Yes | eSIM") "esim" = true :=
  ⟨C5_extraction_on_match specExampleDevice "Nano-SIM | Yes | eSIM"
     (by decide) (by decide), by decide⟩

/-- C6: a device detail with no specification entry whose name contains
"sim" (case-insensitively) yields a payload with simRaw = null and
supportsEsim = null while found is still true. -/
theorem C6_no_sim_entry_nulls (st : ServerState) (now : Nat) (q did : String)
    (d : DeviceDetail) (sNet : SearchNet)
    (hid : did ≠ "")
    (hmiss : cacheGet st.cache
      (normalizeCacheKey (cleanQueryOf (some q)) (some did)) = none)
    (hg1 : st.lastCallTs + MIN_INTERVAL_MS ≤ now)
    (hg2 : st.remoteBlockedUntil ≤ now)
    (hnosim : ∀ sec ∈ d.detailSpec, ∀ e ∈ sec.specifications,
        strContains (strToLower e.name) "sim" = false) :
    ∃ p : Payload,
      handleCheckEsim st now ⟨some q, some did⟩ sNet (.ok d) =
        (.esimOk p false,
         { st with
           lastCallTs := now,
           cache := cachePut st.cache
             (normalizeCacheKey (cleanQueryOf (some q)) (some did)) p },
         [.getDevice did]) ∧
      p.found = true ∧ p.simRaw = none ∧ p.supportsEsim = none := by
  have hscan : scanSimText d = none := scanSimText_eq_none_of_no_sim d hnosim
  have hcond : ¬(now - st.lastCallTs < MIN_INTERVAL_MS) := by
    unfold MIN_INTERVAL_MS at *; omega
  have hcond2 : ¬(now < st.remoteBlockedUntil) := by omega
  refine ⟨{ found := true, deviceName := deviceNameOf d.name none (some q),
            deviceId := some did, simRaw := none, supportsEsim := none,
            message := noSimDataMsg }, ?_, rfl, rfl, rfl⟩
  simp [handleCheckEsim, optStrTruthy, hid, hmiss, hcond, hcond2,
    finishDevice, getDeviceCall, hscan, simTextFalsy]

/-- A device with no SIM-related specification entry at all. -/
def noSimDevice : DeviceDetail :=
  ⟨"Lenovo Tab", [⟨[⟨"Display", some (.str "10.1 inches")⟩]⟩]⟩

/-- Witness for C6 on a concrete device with no sim-named entry. -/
theorem C6_no_sim_entry_nulls_witness :
    ∃ p : Payload,
      handleCheckEsim ⟨0, 0, []⟩ 10000 ⟨some "tab", some "lenovo_tab-1"⟩
          (.ok (some [])) (.ok noSimDevice) =
        (.esimOk p false,
         { (⟨0, 0, []⟩ : ServerState) with
           lastCallTs := 10000,
           cache := cachePut []
             (normalizeCacheKey (cleanQueryOf (some "tab"))
               (some "lenovo_tab-1")) p },
         [.getDevice "lenovo_tab-1"]) ∧
      p.found = true ∧ p.simRaw = none ∧ p.supportsEsim = none :=
  C6_no_sim_entry_nulls ⟨0, 0, []⟩ 10000 "tab" "lenovo_tab-1" noSimDevice
    (.ok (some [])) (by decide) (by decide) (by decide) (by decide)
    (by decide)

/-- C7 counterexample: with an unknown deviceId supplied (and no query),
the handler never consults search results; the device-detail fetch fails
and the response is HTTP 500 with nothing cached — not a cached
found = false payload as the claim states for this case. -/
theorem C7_unknown_deviceId_counterexample :
    handleCheckEsim ⟨0, 0, []⟩ 10000 ⟨none, some "unknown-id"⟩
        (.ok (some [])) (.error .other) =
      (.serverError, ⟨10000, 0, []⟩, [.getDevice "unknown-id"]) ∧
    (handleCheckEsim ⟨0, 0, []⟩ 10000 ⟨none, some "unknown-id"⟩
        (.ok (some [])) (.error .other)).2.1.cache = [] ∧
    statusOf .serverError = 500 := by
  refine ⟨by decide, by decide, by decide⟩

/-- C7 (amended): only the no-deviceId path can produce found = false —
when the upstream search yields no usable results, the handler returns
the not-found payload and stores it in the cache under the request's
LookupKey (with a deviceId supplied, an unknown id surfaces as the
device-fetch outcome instead). -/
theorem C7_empty_search_cached_not_found (st : ServerState) (now : Nat)
    (q : String) (sNet : SearchNet) (devNet : DeviceNet)
    (hq : strTrim q ≠ "")
    (hmiss : cacheGet st.cache
      (normalizeCacheKey (cleanQueryOf (some q)) none) = none)
    (hg1 : st.lastCallTs + MIN_INTERVAL_MS ≤ now)
    (hg2 : st.remoteBlockedUntil ≤ now)
    (hnet : sNet = .ok none ∨ sNet = .ok (some [])) :
    handleCheckEsim st now ⟨some q, none⟩ sNet devNet =
      (.esimOk { found := false, message := notFoundMsg } false,
       { st with
         lastCallTs := now,
         cache := cachePut st.cache
           (normalizeCacheKey (cleanQueryOf (some q)) none)
           { found := false, message := notFoundMsg } },
       [.search (strTrim q)]) ∧
    cacheGet
      (handleCheckEsim st now ⟨some q, none⟩ sNet devNet).2.1.cache
      (normalizeCacheKey (cleanQueryOf (some q)) none) =
      some { found := false, message := notFoundMsg } := by
  have hq0 : q ≠ "" := fun h => hq (by rw [h]; rfl)
  have hcond : ¬(now - st.lastCallTs < MIN_INTERVAL_MS) := by
    unfold MIN_INTERVAL_MS at *; omega
  have hcond2 : ¬(now < st.remoteBlockedUntil) := by omega
  have hmiss' : cacheGet st.cache
      (normalizeCacheKey (some (strTrim q)) none) = none := by
    simpa [cleanQueryOf, optStrTruthy, hq0] using hmiss
  have main : handleCheckEsim st now ⟨some q, none⟩ sNet devNet =
      (.esimOk { found := false, message := notFoundMsg } false,
       { st with
         lastCallTs := now,
         cache := cachePut st.cache
           (normalizeCacheKey (cleanQueryOf (some q)) none)
           { found := false, message := notFoundMsg } },
       [.search (strTrim q)]) := by
    rcases hnet with rfl | rfl <;>
      simp [handleCheckEsim, blankQuery, cleanQueryOf, optStrTruthy, hq0, hq,
        hmiss', hcond, hcond2, safeSearchDevices]
  refine ⟨main, ?_⟩
  rw [main]
  simp [cacheGet, cachePut]

/-- Witness for C7 on a concrete empty search. -/
theorem C7_empty_search_cached_not_found_witness :
    handleCheckEsim ⟨0, 0, []⟩ 10000 ⟨some "zzz", none⟩ (.ok (some []))
        (.error .other) =
      (.esimOk { found := false, message := notFoundMsg } false,
       { (⟨0, 0, []⟩ : ServerState) with
         lastCallTs := 10000,
         cache := cachePut []
           (normalizeCacheKey (cleanQueryOf (some "zzz")) none)
           { found := false, message := notFoundMsg } },
       [.search (strTrim "zzz")]) ∧
    cacheGet
      (handleCheckEsim ⟨0, 0, []⟩ 10000 ⟨some "zzz", none⟩ (.ok (some []))
        (.error .other)).2.1.cache
      (normalizeCacheKey (cleanQueryOf (some "zzz")) none) =
      some { found := false, message := notFoundMsg } :=
  C7_empty_search_cached_not_found ⟨0, 0, []⟩ 10000 "zzz" (.ok (some []))
    (.error .other) (by decide) (by decide) (by decide) (by decide)
    (Or.inr rfl)

/-- A minimal device detail used to probe the getDevice call. -/
def blockedProbeDevice : DeviceDetail := ⟨"Probe", []⟩

/-- C8 counterexample: invoked while the current time (10000) is before
blockedUntilTimestamp (40000), the getDevice operation still issues its
network call and passes the provider's answer through — it does not fail
with an UPSTREAM_BLOCKED error, because the source calls
gsmarena.catalog.getDevice directly with no defensive check. -/
theorem C8_getDevice_counterexample :
    getDeviceCall 40000 10000 "apple_iphone_15-12559"
        (.ok blockedProbeDevice) =
      (.ok blockedProbeDevice, [.getDevice "apple_iphone_15-12559"]) ∧
    (10000 : Nat) < 40000 :=
  ⟨rfl, by decide⟩

/-- C8 (amended): only the search operation carries the defensive
double-check — safeSearchDevices invoked while the current time is before
blockedUntilTimestamp fails with an UPSTREAM_BLOCKED error and contacts
no network; getDevice relies solely on the handlers' gating. -/
theorem C8_search_defensive_check (b now : Nat) (q : String)
    (net : SearchNet) (h : now < b) :
    safeSearchDevices b now q net = (.error .blocked, []) := by
  simp [safeSearchDevices, h]

/-- Witness for C8 at a concrete blocked window. -/
theorem C8_search_defensive_check_witness :
    safeSearchDevices 40000 10000 "iphone" (.ok (some [])) =
      (.error .blocked, []) :=
  C8_search_defensive_check 40000 10000 "iphone" (.ok (some [])) (by decide)

/-- The coercion at server.js line 33: a null/non-array search result is
treated as the empty list. -/
def usableResults :
    Option (List (Option RawSearchResult)) → List (Option RawSearchResult)
  | none => []
  | some l => l

/-- C9: a search request with an absent, empty or whitespace-only query is
answered HTTP 400; otherwise on upstream success the results are the
upstream list truncated to 8, mapped to the public shape, with null
entries dropped — hence never more than 8 items. -/
theorem C9_search_validation_and_mapping (st : ServerState) (now : Nat)
    (q : Option String) (rs : Option (List (Option RawSearchResult)))
    (net : SearchNet)
    (hg1 : st.lastCallTs + MIN_INTERVAL_MS ≤ now)
    (hg2 : st.remoteBlockedUntil ≤ now) :
    (blankQuery q = true →
      handleSearch st now ⟨q⟩ net = (.badRequest, st, []) ∧
      statusOf .badRequest = 400) ∧
    (blankQuery q = false →
      handleSearch st now ⟨q⟩ (.ok rs) =
        (.searchOk
          ((((usableResults rs).take 8).map mapDeviceResult).filterMap id),
         { st with lastCallTs := now }, [.search (strTrim (q.getD ""))]) ∧
      ((((usableResults rs).take 8).map mapDeviceResult).filterMap id).length
        ≤ 8) := by
  constructor
  · intro hb
    exact ⟨by simp [handleSearch, hb], rfl⟩
  · intro hb
    have hcond : ¬(now - st.lastCallTs < MIN_INTERVAL_MS) := by
      unfold MIN_INTERVAL_MS at *; omega
    have hcond2 : ¬(now < st.remoteBlockedUntil) := by omega
    constructor
    · rcases rs with _ | l <;>
        simp [handleSearch, hb, hcond, hcond2, safeSearchDevices,
          usableResults]
    · have h1 := List.length_filterMap_le (id (α := Option SearchResult))
        (((usableResults rs).take 8).map mapDeviceResult)
      have h2 : (((usableResults rs).take 8).map mapDeviceResult).length =
          ((usableResults rs).take 8).length := by
        simp
      have h3 : ((usableResults rs).take 8).length ≤ 8 := by
        rw [List.length_take]
        exact min_le_left _ _
      omega

/-- Witness for C9: a two-element upstream list with one null entry. -/
theorem C9_search_validation_and_mapping_witness :
    (blankQuery (some "iphone") = true →
      handleSearch ⟨0, 0, []⟩ 10000 ⟨some "iphone"⟩
          (.ok (some [some ⟨"apple_iphone_15-12559", "Apple iPhone 15",
            some "img.jpg", some "Apple"⟩, none])) =
        (.badRequest, ⟨0, 0, []⟩, []) ∧
      statusOf .badRequest = 400) ∧
    (blankQuery (some "iphone") = false →
      handleSearch ⟨0, 0, []⟩ 10000 ⟨some "iphone"⟩
          (.ok (some [some ⟨"apple_iphone_15-12559", "Apple iPhone 15",
            some "img.jpg", some "Apple"⟩, none])) =
        (.searchOk
          ((((usableResults (some [some ⟨"apple_iphone_15-12559",
              "Apple iPhone 15", some "img.jpg", some "Apple"⟩,
              none])).take 8).map mapDeviceResult).filterMap id),
         { (⟨0, 0, []⟩ : ServerState) with lastCallTs := 10000 },
         [.search (strTrim ((some "iphone").getD ""))]) ∧
      ((((usableResults (some [some ⟨"apple_iphone_15-12559",
          "Apple iPhone 15", some "img.jpg", some "Apple"⟩,
          none])).take 8).map mapDeviceResult).filterMap id).length ≤ 8) :=
  C9_search_validation_and_mapping ⟨0, 0, []⟩ 10000 (some "iphone")
    (some [some ⟨"apple_iphone_15-12559", "Apple iPhone 15", some "img.jpg",
      some "Apple"⟩, none])
    (.ok (some [some ⟨"apple_iphone_15-12559", "Apple iPhone 15",
      some "img.jpg", some "Apple"⟩, none]))
    (by decide) (by decide)

/-- The text a present value would contribute, with an absent value
reading as the empty string. -/
def optValueText : Option SpecValue → String
  | none => ""
  | some v => specValueText v

/-- C10 (implicit): the scan loop skips entries with an absent or falsy
value even when the name contains "sim", and when every sim-named entry's
text is empty the extractor lands in the no-SIM-data branch — simRaw and
supportsEsim are both null rather than an empty simRaw with a false
supportsEsim. -/
theorem C10_falsy_values_skipped (d : DeviceDetail) (acc : Option String)
    (nm : String)
    (h : ∀ sec ∈ d.detailSpec, ∀ e ∈ sec.specifications,
        strContains (strToLower e.name) "sim" = true →
        optValueText e.value = "") :
    scanEntry acc ⟨nm, some (.str "")⟩ = acc ∧
    scanEntry acc ⟨nm, none⟩ = acc ∧
    extractSimInfo d = (none, none) := by
  refine ⟨?_, rfl, ?_⟩
  · simp [scanEntry, valueFalsy]
  · have hall : ∀ t ∈ capturedTexts d, t = "" := by
      intro t ht
      rw [capturedTexts, List.mem_filterMap] at ht
      obtain ⟨e, he, hcap⟩ := ht
      rw [List.mem_flatten] at he
      obtain ⟨l, hl, hel⟩ := he
      rw [List.mem_map] at hl
      obtain ⟨sec, hsec, rfl⟩ := hl
      obtain ⟨v, hv, hsim, rfl⟩ := captureOf_eq_some e t hcap
      have hempty := h sec hsec e hel hsim
      rw [hv] at hempty
      simpa [optValueText] using hempty
    unfold extractSimInfo
    rw [scanSimText_eq_getLast]
    cases hlast : (capturedTexts d).getLast? with
    | none => rfl
    | some t =>
      have ht : t = "" := hall t (mem_of_getLast?_eq _ t hlast)
      simp [ht]

/-- A device whose sim-named entries all carry empty text: one falsy
string value, one (truthy) empty-array value. -/
def allEmptySimDevice : DeviceDetail :=
  ⟨"Phone Q", [⟨[⟨"SIM", some (.str "")⟩, ⟨"SIM 2", some (.arr [])⟩]⟩]⟩

/-- Witness for C10 on a device whose sim entries are all empty. -/
theorem C10_falsy_values_skipped_witness :
    scanEntry (some "seed") ⟨"eSIM", some (.str "")⟩ = some "seed" ∧
    scanEntry (some "seed") ⟨"eSIM", none⟩ = some "seed" ∧
    extractSimInfo allEmptySimDevice = (none, none) :=
  C10_falsy_values_skipped allEmptySimDevice (some "seed") "eSIM"
    (by decide)

end ElectronEsim
